import Mathlib

/-
Verification development for the winregenv registry access layer.

The Python modules `registry_errors.py`, `registry_translation.py`,
`registry_types.py`, `registry_base.py` and `registry_interface.py` are
shallowly embedded below.  The Windows `winreg` module is an external
collaborator; its calls are modelled by an oracle record (`WinReg`) whose
components give the outcome of each OS primitive, and every embedded
operation additionally returns the list of OS calls it performed, so that
claims about call order and about "no OS call is made" are directly
statable.  Key handles are abstracted by the path they were opened from
(the embedded code never uses a handle except immediately after opening
the corresponding path).
-/

set_option maxRecDepth 4096

/-- Model of the Python values that can flow through the translation layer:
strings, ints, bytes, lists of strings (mutable), tuples of strings
(immutable), and None.  Lists and tuples of strings are the only sequence
shapes the embedded claims exercise. -/
inductive PyVal where
  | str (s : String)
  | int (i : Int)
  | bytes (b : List Nat)
  | strList (xs : List String)
  | strTuple (xs : List String)
  | pyNone
deriving DecidableEq

/-- Python `type(x)` rendering used inside error messages. -/
def PyVal.pyTypeName : PyVal → String
  | .str _ => "<class 'str'>"
  | .int _ => "<class 'int'>"
  | .bytes _ => "<class 'bytes'>"
  | .strList _ => "<class 'list'>"
  | .strTuple _ => "<class 'tuple'>"
  | .pyNone => "<class 'NoneType'>"

/- winreg REG_* integer constants (values fixed by the Windows API). -/

def REG_NONE : Int := 0
def REG_SZ : Int := 1
def REG_EXPAND_SZ : Int := 2
def REG_BINARY : Int := 3
def REG_DWORD : Int := 4
def REG_DWORD_LITTLE_ENDIAN : Int := 4
def REG_DWORD_BIG_ENDIAN : Int := 5
def REG_LINK : Int := 6
def REG_MULTI_SZ : Int := 7
def REG_RESOURCE_LIST : Int := 8
def REG_FULL_RESOURCE_DESCRIPTOR : Int := 9
def REG_RESOURCE_REQUIREMENTS_LIST : Int := 10
def REG_QWORD : Int := 11
def REG_QWORD_LITTLE_ENDIAN : Int := 11

/- winreg access-right and hive constants. -/

def KEY_READ : Nat := 131097
def KEY_WRITE : Nat := 131078
def KEY_SET_VALUE : Nat := 2
def KEY_CREATE_SUB_KEY : Nat := 4
def KEY_ENUMERATE_SUB_KEYS : Nat := 8
def KEY_WOW64_32KEY : Nat := 512

def HKEY_CLASSES_ROOT : Int := 2147483648
def HKEY_CURRENT_USER : Int := 2147483649
def HKEY_LOCAL_MACHINE : Int := 2147483650
def HKEY_USERS : Int := 2147483651
def HKEY_CURRENT_CONFIG : Int := 2147483653

/-- `effective_access = access | KEY_WOW64_32KEY if access_32bit_view else access`,
as computed at every call site in `registry_base.py`. -/
def effAccess (access : Nat) (access_32bit_view : Bool) : Nat :=
  if access_32bit_view then access ||| KEY_WOW64_32KEY else access

/- ----- registry_errors.py ----- -/

/-- The closed exception taxonomy of `registry_errors.py`: the base
`RegistryError` class and its subclasses. -/
inductive ErrKind where
  | base
  | keyNotFound
  | valueNotFound
  | keyNotEmpty
  | permission
  | expansion
deriving DecidableEq

/-- A (raised) domain exception: subclass tag, display message, and the
`winerror` / `strerror` attributes set by `RegistryError.__init__`. -/
structure RegistryError where
  kind : ErrKind
  message : String
  winerror : Option Int
  strerror : Option String
deriving DecidableEq

/-- In Python, `RegistryPermissionError` also inherits `PermissionError`
(hence `OSError`); the other subclasses inherit `LookupError` or plain
`Exception`.  Only permission errors are re-caught by `except OSError`. -/
def RegistryError.isOSError (e : RegistryError) : Bool :=
  e.kind = ErrKind.permission

/-- A raw `OSError` coming out of a `winreg` call: the `winerror` attribute
(absent on non-Windows errors) and `strerror`. -/
structure OSErr where
  winerror : Option Int
  strerror : Option String
deriving DecidableEq

/-- The exception value handed to `_handle_winreg_error`: either a raw
`OSError` from `winreg`, or an already-translated domain `RegistryError`
(possible because `RegistryPermissionError` is an `OSError`). -/
inductive OSExc where
  | raw (e : OSErr)
  | dom (e : RegistryError)
deriving DecidableEq

/-- `_ERROR_MAP.get(err_code, RegistryError)` from `registry_errors.py`. -/
def _ERROR_MAP (code : Option Int) : ErrKind :=
  match code with
  | none => ErrKind.base
  | some c =>
    if c = 2 then ErrKind.keyNotFound
    else if c = 5 then ErrKind.permission
    else if c = 183 then ErrKind.base
    else if c = 206 then ErrKind.base
    else if c = 247 then ErrKind.keyNotEmpty
    else ErrKind.base

/-- Rendering of `e.strerror` inside an f-string (`None` prints as "None"). -/
def strerrorRepr : Option String → String
  | some s => s
  | none => "None"

/-- Python `needle in hay` on strings. -/
def pyContains (hay needle : String) : Bool :=
  needle == "" || !((hay.splitOn needle).length == 1)

/-- The message composed by `_handle_winreg_error` before raising. -/
def composeMessage (errCode : Option Int) (strerror : Option String)
    (path : String) (name : Option String) : String :=
  let m1 := "Registry operation failed on key '" ++ path ++ "'"
  let m2 := match name with
            | some n => m1 ++ ", value '" ++ n ++ "'"
            | none => m1
  match errCode with
  | some c => m2 ++ " (WinError " ++ toString c ++ ": " ++ strerrorRepr strerror ++ ")"
  | none =>
    match strerror with
    | some s => if s = "" then m2 else m2 ++ " (" ++ s ++ ")"
    | none => m2

/-- `_handle_winreg_error(e, path, name)`: returns the exception the function
raises.  An input that is already a `RegistryError` is re-raised as-is
(after the no-op winerror backfill); any other `OSError` is mapped through
`_ERROR_MAP` with the composed message. -/
def handleWinregError : OSExc → String → Option String → RegistryError
  | .dom e, _, _ =>
    -- err_code = getattr(e, 'winerror', None) is e.winerror itself here,
    -- so the backfill condition can never fire; it is kept verbatim.
    let errCode := e.winerror
    if e.winerror = none ∧ errCode ≠ none then { e with winerror := errCode } else e
  | .raw e, path, name =>
    let errCode := e.winerror
    let kind := _ERROR_MAP errCode
    let msg0 := composeMessage errCode e.strerror path name
    let msg := if kind = ErrKind.keyNotEmpty ∧ ¬ pyContains msg0 path = true
               then "Registry key '" ++ path ++ "' is not empty. " ++ msg0
               else msg0
    { kind := kind, message := msg, winerror := errCode, strerror := e.strerror }

/-- An exception propagating out of a with-block hits the enclosing
`except OSError` handler only if it is an `OSError`; the handler then calls
`_handle_winreg_error` on it (which re-raises a domain error unchanged). -/
def reraiseOuter (e : RegistryError) (path : String) (name : Option String) : RegistryError :=
  if e.isOSError then handleWinregError (.dom e) path name else e

/- ----- path helpers (registry_base.py / ntpath) ----- -/

/-- One character of Python `s.replace('/', '\\')`. -/
def slashToBack (c : Char) : Char :=
  if c = '/' then '\\' else c

/-- Python single-character `str.replace`. -/
def pyReplaceChar (s : String) (old new : Char) : String :=
  String.mk (s.data.map (fun c => if c = old then new else c))

def charListContains : List Char → Char → Bool
  | [], _ => false
  | c :: cs, d => c = d || charListContains cs d

/-- Whether a string contains a given character. -/
def strContainsChar (s : String) (c : Char) : Bool :=
  charListContains s.data c

def isSep (c : Char) : Bool :=
  c = '\\' || c = '/'

/-- `ntpath.join` restricted to drive-less paths (registry key paths have no
drive letters): an absolute second component replaces the first; otherwise
the parts are glued with a backslash unless the first already ends in a
separator or is empty. -/
def ntJoin (a b : String) : String :=
  if b.startsWith ("\\") || b.startsWith ("/") then b
  else if a = "" || a.endsWith ("\\") || a.endsWith ("/") then a ++ b
  else a ++ "\\" ++ b

/-- `_join_registry_paths(prefix, path)` from `registry_base.py`. -/
def _join_registry_paths (pfx : String) (path : String) : String :=
  if pfx = "" then path
  else if path = "" then pfx
  else pyReplaceChar (ntJoin pfx path) '/' '\\'

/-- The prefix argument reaches `_join_registry_paths` as `None` or a string;
both `None` and `""` are falsy there. -/
def optStr : Option String → String
  | none => ""
  | some s => s

/-- `ntpath.split` for drive-less paths: split after the last separator and
strip trailing separators from the head unless that empties it. -/
def ntSplit (p : String) : String × String :=
  let cs := p.data
  let tailRev := cs.reverse.takeWhile (fun c => !(isSep c))
  let headRev := cs.reverse.drop tailRev.length
  let headStrippedRev := headRev.dropWhile isSep
  let head := if headStrippedRev.isEmpty then headRev.reverse else headStrippedRev.reverse
  (String.mk head, String.mk tailRev.reverse)

/- ----- registry_translation.py ----- -/

/-- Exceptions observable from the translation layer and the facade:
domain registry errors, `TypeError`, `ValueError`, plus a fuel-exhaustion
marker used only by the embedded `while True` enumeration loops. -/
inductive PyErr where
  | regErr (e : RegistryError)
  | typeErr (msg : String)
  | valueErr (msg : String)
  | nonterm
deriving DecidableEq

/-- `_REG_TYPE_NAMES.get(reg_type, f"UnknownType({reg_type})")`. -/
def get_reg_type_name (t : Int) : String :=
  if t = REG_NONE then "REG_NONE"
  else if t = REG_SZ then "REG_SZ"
  else if t = REG_EXPAND_SZ then "REG_EXPAND_SZ"
  else if t = REG_BINARY then "REG_BINARY"
  else if t = REG_DWORD then "REG_DWORD"
  else if t = REG_DWORD_BIG_ENDIAN then "REG_DWORD_BIG_ENDIAN"
  else if t = REG_LINK then "REG_LINK"
  else if t = REG_MULTI_SZ then "REG_MULTI_SZ"
  else if t = REG_RESOURCE_LIST then "REG_RESOURCE_LIST"
  else if t = REG_FULL_RESOURCE_DESCRIPTOR then "REG_FULL_RESOURCE_DESCRIPTOR"
  else if t = REG_RESOURCE_REQUIREMENTS_LIST then "REG_RESOURCE_REQUIREMENTS_LIST"
  else if t = REG_QWORD then "REG_QWORD"
  else "UnknownType(" ++ toString t ++ ")"

/-- Keys of `_REG_TYPE_NAMES`. -/
def _REG_TYPE_NAMES_keys : List Int := [0, 1, 2, 3, 4, 5, 6, 7, 8, 9, 10, 11]

/-- Values of every `REG_*` constant in the `winreg` module (the fallback
set `all_known_types`; besides the value-type tags it picks up the
REG_OPTION_* / REG_NOTIFY_* / hive-op constants). -/
def _WINREG_ALL_REG_VALUES : List Int :=
  [0, 1, 2, 3, 4, 5, 6, 7, 8, 9, 10, 11, 31, 268435471]

/-- `_REG_NAME_TO_TYPE` (reverse of `_REG_TYPE_NAMES`). -/
def _REG_NAME_TO_TYPE (s : String) : Option Int :=
  if s = "REG_NONE" then some REG_NONE
  else if s = "REG_SZ" then some REG_SZ
  else if s = "REG_EXPAND_SZ" then some REG_EXPAND_SZ
  else if s = "REG_BINARY" then some REG_BINARY
  else if s = "REG_DWORD" then some REG_DWORD
  else if s = "REG_DWORD_BIG_ENDIAN" then some REG_DWORD_BIG_ENDIAN
  else if s = "REG_LINK" then some REG_LINK
  else if s = "REG_MULTI_SZ" then some REG_MULTI_SZ
  else if s = "REG_RESOURCE_LIST" then some REG_RESOURCE_LIST
  else if s = "REG_FULL_RESOURCE_DESCRIPTOR" then some REG_FULL_RESOURCE_DESCRIPTOR
  else if s = "REG_RESOURCE_REQUIREMENTS_LIST" then some REG_RESOURCE_REQUIREMENTS_LIST
  else if s = "REG_QWORD" then some REG_QWORD
  else none

/-- The user-facing registry-type argument: an int tag or a string name. -/
inductive RegTypeInput where
  | int (i : Int)
  | str (s : String)
deriving DecidableEq

/-- `_normalize_registry_type_input` from `registry_translation.py`. -/
def _normalize_registry_type_input : RegTypeInput → Except PyErr Int
  | .int t =>
    if t ∈ _REG_TYPE_NAMES_keys then .ok t
    else if t = REG_DWORD_LITTLE_ENDIAN then .ok REG_DWORD
    else if t = REG_QWORD_LITTLE_ENDIAN then .ok REG_QWORD
    else if t ∈ _WINREG_ALL_REG_VALUES then .ok t
    else .error (.valueErr ("Input integer " ++ toString t ++
      " does not correspond to a known Windows registry type (REG_*)."))
  | .str s =>
    let upper := s.toUpper
    match _REG_NAME_TO_TYPE upper with
    | some t => .ok t
    | none =>
      if upper = "REG_DWORD_LITTLE_ENDIAN" then .ok REG_DWORD
      else if upper = "REG_QWORD_LITTLE_ENDIAN" then .ok REG_QWORD
      else .error (.valueErr ("Input string '" ++ s ++
        "' is not a recognized Windows registry type name (e.g., 'REG_SZ', 'REG_DWORD')."))

/-- `_infer_registry_type_for_new_value` from `registry_translation.py`. -/
def _infer_registry_type_for_new_value (data : PyVal) : Except PyErr (PyVal × Int) :=
  match data with
  | .str _ => .ok (data, REG_SZ)
  | .int d =>
    if -(2 : Int) ^ 31 ≤ d ∧ d ≤ 2 ^ 32 - 1 then .ok (data, REG_DWORD)
    else .error (.valueErr ("Integer data " ++ toString d ++
      " is outside the range for default REG_DWORD (-2^31 to 2^32-1). Specify value_type=REG_QWORD if a 64-bit integer is intended."))
  | .bytes _ => .ok (data, REG_BINARY)
  | .strList _ => .ok (data, REG_MULTI_SZ)
  | _ => .error (.typeErr ("Cannot infer registry type for Python data type: " ++
      data.pyTypeName ++ ". Please specify value_type using a winregenv.REG_* constant."))

/-- `_validate_and_convert_data_for_type` from `registry_translation.py`. -/
def _validate_and_convert_data_for_type (data : PyVal) (target_type : Int) : Except PyErr PyVal :=
  if target_type = REG_SZ ∨ target_type = REG_EXPAND_SZ ∨ target_type = REG_LINK then
    match data with
    | .str _ => .ok data
    | _ => .error (.typeErr ("Data must be a string for registry type " ++
        get_reg_type_name target_type ++ ", but got " ++ data.pyTypeName ++ "."))
  else if target_type = REG_DWORD ∨ target_type = REG_DWORD_LITTLE_ENDIAN ∨
          target_type = REG_DWORD_BIG_ENDIAN then
    match data with
    | .int d =>
      if -(2 : Int) ^ 31 ≤ d ∧ d ≤ 2 ^ 32 - 1 then .ok data
      else .error (.valueErr ("Integer data " ++ toString d ++
        " is out of range for a 32-bit registry type (" ++ get_reg_type_name target_type ++ ")."))
    | _ => .error (.typeErr ("Data must be an integer for registry type " ++
        get_reg_type_name target_type ++ ", but got " ++ data.pyTypeName ++ "."))
  else if target_type = REG_QWORD ∨ target_type = REG_QWORD_LITTLE_ENDIAN then
    match data with
    | .int d =>
      if -(2 : Int) ^ 63 ≤ d ∧ d ≤ 2 ^ 64 - 1 then .ok data
      else .error (.valueErr ("Integer data " ++ toString d ++
        " is out of range for a 64-bit registry type (" ++ get_reg_type_name target_type ++ ")."))
    | _ => .error (.typeErr ("Data must be an integer for registry type " ++
        get_reg_type_name target_type ++ ", but got " ++ data.pyTypeName ++ "."))
  else if target_type = REG_BINARY then
    match data with
    | .bytes _ => .ok data
    | _ => .error (.typeErr ("Data must be bytes for registry type " ++
        get_reg_type_name target_type ++ ", but got " ++ data.pyTypeName ++ "."))
  else if target_type = REG_MULTI_SZ then
    match data with
    | .strList _ => .ok data
    | _ => .error (.typeErr ("Data must be a list of strings for registry type " ++
        get_reg_type_name target_type ++ ", but got " ++ data.pyTypeName ++ "."))
  else if target_type = REG_NONE then
    -- data is ignored (a non-empty input only logs a warning); SetValueEx
    -- receives None.
    .ok .pyNone
  else if target_type = REG_RESOURCE_LIST ∨ target_type = REG_FULL_RESOURCE_DESCRIPTOR ∨
          target_type = REG_RESOURCE_REQUIREMENTS_LIST then
    match data with
    | .bytes _ => .ok data
    | _ => .error (.typeErr ("Data must be bytes for registry type " ++
        get_reg_type_name target_type ++ ", but got " ++ data.pyTypeName ++ "."))
  else
    .error (.typeErr ("Unsupported or unhandled target registry type: " ++
      get_reg_type_name target_type ++ " (" ++ toString target_type ++ ")."))

/- ----- registry_types.py ----- -/

/-- The internal state of a constructed `RegistryValue` (fields `_name`,
`_data`, `_value_type`). -/
structure RegistryValue where
  name : String
  data : PyVal
  vtype : Int
deriving DecidableEq

/-- `RegistryValue.__init__`: REG_MULTI_SZ list data is stored as a tuple
for hashability; everything else is stored as given. -/
def RegistryValue.init (name : String) (data : PyVal) (value_type : Int) : RegistryValue :=
  let d := match data with
           | .strList xs => if value_type = REG_MULTI_SZ then PyVal.strTuple xs else PyVal.strList xs
           | other => other
  ⟨name, d, value_type⟩

/-- `RegistryValue.__eq__` against another `RegistryValue`. -/
def RegistryValue.eqRV (a b : RegistryValue) : Bool :=
  decide (a.name = b.name) && decide (a.data = b.data) && decide (a.vtype = b.vtype)

def PyVal.isList : PyVal → Bool
  | .strList _ => true
  | _ => false

def PyVal.listToTuple : PyVal → PyVal
  | .strList xs => .strTuple xs
  | other => other

/-- `RegistryValue.__eq__` against a bare 3-tuple `(name, data, type)`:
a list in the data slot of the tuple is converted to a tuple first when the
value's own type is REG_MULTI_SZ. -/
def RegistryValue.eqTriple (a : RegistryValue) (n : String) (d : PyVal) (ty : Int) : Bool :=
  if a.vtype = REG_MULTI_SZ ∧ d.isList = true then
    decide (a.name = n) && decide (a.data = d.listToTuple) && decide (a.vtype = ty)
  else
    decide (a.name = n) && decide (a.data = d) && decide (a.vtype = ty)

/-- Python `hash` on a data value: lists are unhashable (`none` models the
`TypeError` raise); all immutable shapes hash. -/
def pyValHash : PyVal → Option UInt64
  | .str s => some (hash s)
  | .int i => some (hash i)
  | .bytes b => some (hash b)
  | .strTuple xs => some (hash xs)
  | .strList _ => none
  | .pyNone => some 2

/-- `RegistryValue.__hash__`: `hash((self._name, self._data, self._value_type))`;
fails (None) when the stored data is still a mutable list. -/
def RegistryValue.hashOpt (v : RegistryValue) : Option UInt64 :=
  match pyValHash v.data with
  | none => none
  | some h => some (mixHash (hash v.name) (mixHash h (hash v.vtype)))

/-- `RegistryValue.__getitem__`: indices 0, 1, 2 yield name, data, type;
everything else raises `IndexError` (the error message is the payload). -/
def RegistryValue.getitem (v : RegistryValue) (key : Int) : Except String PyVal :=
  if key = 0 then .ok (.str v.name)
  else if key = 1 then .ok v.data
  else if key = 2 then .ok (.int v.vtype)
  else .error ("RegistryValue index out of range (expected 0, 1, or 2)")

/-- `RegistryValue.__iter__`: yields name, then data, then type. -/
def RegistryValue.iterFields (v : RegistryValue) : List PyVal :=
  [.str v.name, v.data, .int v.vtype]

/- ----- the winreg collaborator (external OS primitive) ----- -/

/-- One OS-level registry call, as recorded in an operation's trace. -/
inductive OSCall where
  | openKeyCall (rootKey : Int) (path : String) (access : Nat)
  | createKeyCall (rootKey : Int) (path : String) (access : Nat)
  | queryValueCall (path : String) (name : String)
  | setValueCall (path : String) (name : String) (vtype : Int)
  | queryInfoCall (path : String)
  | deleteValueCall (path : String) (name : String)
  | deleteKeyCall (parent : String) (name : String)
  | enumValueCall (path : String) (index : Nat)
  | enumKeyCall (path : String) (index : Nat)
  | elevationProbe
deriving DecidableEq

/-- Oracle giving the outcome of each external collaborator call.  Handles
are abstracted by the path they were opened from; `isElevated` is the
elevation probe collaborator (`elevation_check.is_elevated`). -/
structure WinReg where
  openKey : Int → String → Nat → Except OSErr Unit
  createKeyEx : Int → String → Nat → Except OSErr Unit
  queryValueEx : String → String → Except OSErr (PyVal × Int)
  setValueEx : String → String → Int → PyVal → Except OSErr Unit
  queryInfoKey : String → Except OSErr (Nat × Nat × Int)
  deleteValue : String → String → Except OSErr Unit
  deleteKey : String → String → Except OSErr Unit
  enumValue : String → Nat → Except OSErr (String × PyVal × Int)
  enumKey : String → Nat → Except OSErr String
  isElevated : Except OSErr Bool

/- ----- registry_base.py ----- -/

namespace registry_base

/-- `ensure_registry_key_exists`: no-op on an empty resolved path, else
`CreateKeyEx` with KEY_WRITE (plus the view flag), handle closed at once. -/
def ensure_registry_key_exists (os : WinReg) (root_key : Int) (key_path : String)
    (rootPfx : Option String) (access_32bit_view : Bool) :
    Except PyErr Unit × List OSCall :=
  let full_path := _join_registry_paths (optStr rootPfx) key_path
  if full_path = "" then (.ok (), [])
  else
    let acc := effAccess KEY_WRITE access_32bit_view
    match os.createKeyEx root_key full_path acc with
    | .ok _ => (.ok (), [.createKeyCall root_key full_path acc])
    | .error e =>
      (.error (.regErr (handleWinregError (.raw e) full_path none)),
       [.createKeyCall root_key full_path acc])

/-- `put_registry_value` (module level): ensure the key exists, open it with
KEY_SET_VALUE, `SetValueEx`.  Failures route through the error normalizer
with the full path (and the value name for the inner call). -/
def put_registry_value (os : WinReg) (root_key : Int) (key_path value_name : String)
    (value_data : PyVal) (value_type : Int) (rootPfx : Option String)
    (access_32bit_view : Bool) : Except PyErr Unit × List OSCall :=
  let full_path := _join_registry_paths (optStr rootPfx) key_path
  match ensure_registry_key_exists os root_key full_path none access_32bit_view with
  | (.error e, tr) => (.error e, tr)
  | (.ok _, tr) =>
    let acc := effAccess KEY_SET_VALUE access_32bit_view
    match os.openKey root_key full_path acc with
    | .error e =>
      (.error (.regErr (reraiseOuter (handleWinregError (.raw e) full_path none)
         full_path (some value_name))),
       tr ++ [.openKeyCall root_key full_path acc])
    | .ok _ =>
      match os.setValueEx full_path value_name value_type value_data with
      | .ok _ =>
        (.ok (), tr ++ [.openKeyCall root_key full_path acc,
                        .setValueCall full_path value_name value_type])
      | .error e =>
        (.error (.regErr (handleWinregError (.raw e) full_path (some value_name))),
         tr ++ [.openKeyCall root_key full_path acc,
                .setValueCall full_path value_name value_type])

/-- `put_registry_subkey`: ensure the parent exists, then `CreateKeyEx` the
joined subkey path with KEY_WRITE. -/
def put_registry_subkey (os : WinReg) (root_key : Int) (key_path subkey_name : String)
    (rootPfx : Option String) (access_32bit_view : Bool) :
    Except PyErr Unit × List OSCall :=
  let full_parent_path := _join_registry_paths (optStr rootPfx) key_path
  let full_subkey_path := _join_registry_paths full_parent_path subkey_name
  match ensure_registry_key_exists os root_key full_parent_path none access_32bit_view with
  | (.error e, tr) => (.error e, tr)
  | (.ok _, tr) =>
    let acc := effAccess KEY_WRITE access_32bit_view
    match os.createKeyEx root_key full_subkey_path acc with
    | .ok _ => (.ok (), tr ++ [.createKeyCall root_key full_subkey_path acc])
    | .error e =>
      (.error (.regErr (handleWinregError (.raw e) full_subkey_path none)),
       tr ++ [.createKeyCall root_key full_subkey_path acc])

/-- `get_registry_value`: open the key with KEY_READ, then `QueryValueEx`.
WinError 2 from the query maps to `RegistryValueNotFoundError`; WinError 2
from the open maps (via `_ERROR_MAP`) to `RegistryKeyNotFoundError`. -/
def get_registry_value (os : WinReg) (root_key : Int) (key_path value_name : String)
    (rootPfx : Option String) (access_32bit_view : Bool) :
    Except PyErr RegistryValue × List OSCall :=
  let full_path := _join_registry_paths (optStr rootPfx) key_path
  let acc := effAccess KEY_READ access_32bit_view
  match os.openKey root_key full_path acc with
  | .error e =>
    (.error (.regErr (reraiseOuter (handleWinregError (.raw e) full_path none)
       full_path none)),
     [.openKeyCall root_key full_path acc])
  | .ok _ =>
    match os.queryValueEx full_path value_name with
    | .ok (d, t) =>
      (.ok (RegistryValue.init value_name d t),
       [.openKeyCall root_key full_path acc, .queryValueCall full_path value_name])
    | .error e =>
      if e.winerror = some 2 then
        (.error (.regErr ⟨ErrKind.valueNotFound,
           "Registry value '" ++ value_name ++ "' not found in key '" ++ full_path ++ "'.",
           none, none⟩),
         [.openKeyCall root_key full_path acc, .queryValueCall full_path value_name])
      else
        (.error (.regErr (reraiseOuter
           (handleWinregError (.raw e) full_path (some value_name)) full_path none)),
         [.openKeyCall root_key full_path acc, .queryValueCall full_path value_name])

/-- The `while True: EnumValue` loop of `list_registry_values`, with fuel
standing in for the unbounded iteration (WinError 259 terminates it). -/
def enumValuesLoop (os : WinReg) (full_path : String) :
    Nat → Nat → List RegistryValue → Except PyErr (List RegistryValue) × List OSCall
  | 0, _, _ => (.error .nonterm, [])
  | fuel + 1, i, acc =>
    match os.enumValue full_path i with
    | .ok (n, d, t) =>
      let rest := enumValuesLoop os full_path fuel (i + 1) (acc ++ [RegistryValue.init n d t])
      (rest.1, .enumValueCall full_path i :: rest.2)
    | .error e =>
      if e.winerror = some 259 then (.ok acc, [.enumValueCall full_path i])
      else
        (.error (.regErr (reraiseOuter (handleWinregError (.raw e) full_path none)
           full_path none)),
         [.enumValueCall full_path i])

/-- `list_registry_values`: open with KEY_READ, enumerate until WinError 259. -/
def list_registry_values (os : WinReg) (root_key : Int) (key_path : String)
    (rootPfx : Option String) (access_32bit_view : Bool) (fuel : Nat) :
    Except PyErr (List RegistryValue) × List OSCall :=
  let full_path := _join_registry_paths (optStr rootPfx) key_path
  let acc := effAccess KEY_READ access_32bit_view
  match os.openKey root_key full_path acc with
  | .error e =>
    (.error (.regErr (reraiseOuter (handleWinregError (.raw e) full_path none)
       full_path none)),
     [.openKeyCall root_key full_path acc])
  | .ok _ =>
    let rest := enumValuesLoop os full_path fuel 0 []
    (rest.1, .openKeyCall root_key full_path acc :: rest.2)

/-- The `while True: EnumKey` loop of `list_registry_subkeys`. -/
def enumKeysLoop (os : WinReg) (full_path : String) :
    Nat → Nat → List String → Except PyErr (List String) × List OSCall
  | 0, _, _ => (.error .nonterm, [])
  | fuel + 1, i, acc =>
    match os.enumKey full_path i with
    | .ok n =>
      let rest := enumKeysLoop os full_path fuel (i + 1) (acc ++ [n])
      (rest.1, .enumKeyCall full_path i :: rest.2)
    | .error e =>
      if e.winerror = some 259 then (.ok acc, [.enumKeyCall full_path i])
      else
        (.error (.regErr (reraiseOuter (handleWinregError (.raw e) full_path none)
           full_path none)),
         [.enumKeyCall full_path i])

/-- `list_registry_subkeys`: open with KEY_ENUMERATE_SUB_KEYS, enumerate. -/
def list_registry_subkeys (os : WinReg) (root_key : Int) (key_path : String)
    (rootPfx : Option String) (access_32bit_view : Bool) (fuel : Nat) :
    Except PyErr (List String) × List OSCall :=
  let full_path := _join_registry_paths (optStr rootPfx) key_path
  let acc := effAccess KEY_ENUMERATE_SUB_KEYS access_32bit_view
  match os.openKey root_key full_path acc with
  | .error e =>
    (.error (.regErr (reraiseOuter (handleWinregError (.raw e) full_path none)
       full_path none)),
     [.openKeyCall root_key full_path acc])
  | .ok _ =>
    let rest := enumKeysLoop os full_path fuel 0 []
    (rest.1, .openKeyCall root_key full_path acc :: rest.2)

/-- The FILETIME epoch offset used by `head_registry_key`. -/
def _EPOCH_AS_FILETIME : Int := 116444736000000000

/-- Result record of `head_registry_key`.  The datetime value is kept as the
exact number of 100ns ticks since the Unix epoch (the Python code divides by
10^7 in floating point to build a datetime; that conversion carries no
claim-relevant content). -/
structure HeadInfo where
  num_subkeys : Nat
  num_values : Nat
  last_write_ticks_since_unix_epoch : Int
deriving DecidableEq

/-- `head_registry_key`: open with KEY_READ, `QueryInfoKey`, convert the
FILETIME stamp relative to the Unix epoch. -/
def head_registry_key (os : WinReg) (root_key : Int) (key_path : String)
    (rootPfx : Option String) (access_32bit_view : Bool) :
    Except PyErr HeadInfo × List OSCall :=
  let full_path := _join_registry_paths (optStr rootPfx) key_path
  let acc := effAccess KEY_READ access_32bit_view
  match os.openKey root_key full_path acc with
  | .error e =>
    (.error (.regErr (reraiseOuter (handleWinregError (.raw e) full_path none)
       full_path none)),
     [.openKeyCall root_key full_path acc])
  | .ok _ =>
    match os.queryInfoKey full_path with
    | .ok (ns, nv, ft) =>
      (.ok ⟨ns, nv, ft - _EPOCH_AS_FILETIME⟩,
       [.openKeyCall root_key full_path acc, .queryInfoCall full_path])
    | .error e =>
      (.error (.regErr (reraiseOuter (handleWinregError (.raw e) full_path none)
         full_path none)),
       [.openKeyCall root_key full_path acc, .queryInfoCall full_path])

/-- `delete_registry_value`: open with KEY_SET_VALUE, `DeleteValue`;
WinError 2 from the delete itself is swallowed (idempotent delete);
failure to open the key is normalized (WinError 2 becomes Key-Not-Found). -/
def delete_registry_value (os : WinReg) (root_key : Int) (key_path value_name : String)
    (rootPfx : Option String) (access_32bit_view : Bool) :
    Except PyErr Unit × List OSCall :=
  let full_path := _join_registry_paths (optStr rootPfx) key_path
  let acc := effAccess KEY_SET_VALUE access_32bit_view
  match os.openKey root_key full_path acc with
  | .error e =>
    (.error (.regErr (reraiseOuter (handleWinregError (.raw e) full_path none)
       full_path none)),
     [.openKeyCall root_key full_path acc])
  | .ok _ =>
    match os.deleteValue full_path value_name with
    | .ok _ => (.ok (), [.openKeyCall root_key full_path acc,
                         .deleteValueCall full_path value_name])
    | .error e =>
      if e.winerror = some 2 then
        (.ok (), [.openKeyCall root_key full_path acc,
                  .deleteValueCall full_path value_name])
      else
        (.error (.regErr (reraiseOuter
           (handleWinregError (.raw e) full_path (some value_name)) full_path none)),
         [.openKeyCall root_key full_path acc, .deleteValueCall full_path value_name])

/-- `delete_registry_key`: reject the empty resolved path with ValueError;
phase 1 opens the target read-only and aborts with Key-Not-Empty on any
nonzero child/value count; phase 2 opens the parent with
KEY_CREATE_SUB_KEY and deletes the target by name. -/
def delete_registry_key (os : WinReg) (root_key : Int) (key_path : String)
    (rootPfx : Option String) (access_32bit_view : Bool) :
    Except PyErr Unit × List OSCall :=
  let full_path := _join_registry_paths (optStr rootPfx) key_path
  if full_path = "" then (.error (.valueErr ("Cannot delete the root registry key.")), [])
  else
    let accR := effAccess KEY_READ access_32bit_view
    match os.openKey root_key full_path accR with
    | .error e =>
      (.error (.regErr (reraiseOuter (handleWinregError (.raw e) full_path none)
         full_path none)),
       [.openKeyCall root_key full_path accR])
    | .ok _ =>
      match os.queryInfoKey full_path with
      | .error e =>
        (.error (.regErr (reraiseOuter (handleWinregError (.raw e) full_path none)
           full_path none)),
         [.openKeyCall root_key full_path accR, .queryInfoCall full_path])
      | .ok (num_subkeys, num_values, _) =>
        if num_subkeys > 0 ∨ num_values > 0 then
          (.error (.regErr ⟨ErrKind.keyNotEmpty,
             "Registry key '" ++ full_path ++ "' is not empty (contains " ++
               toString num_subkeys ++ " subkeys and " ++ toString num_values ++
               " values). Cannot delete non-empty keys.",
             none, none⟩),
           [.openKeyCall root_key full_path accR, .queryInfoCall full_path])
        else
          let ps := ntSplit full_path
          let accC := effAccess KEY_CREATE_SUB_KEY access_32bit_view
          match os.openKey root_key ps.1 accC with
          | .error e =>
            (.error (.regErr (reraiseOuter (handleWinregError (.raw e) ps.1 none)
               ps.1 none)),
             [.openKeyCall root_key full_path accR, .queryInfoCall full_path,
              .openKeyCall root_key ps.1 accC])
          | .ok _ =>
            match os.deleteKey ps.1 ps.2 with
            | .ok _ =>
              (.ok (), [.openKeyCall root_key full_path accR, .queryInfoCall full_path,
                        .openKeyCall root_key ps.1 accC, .deleteKeyCall ps.1 ps.2])
            | .error e =>
              (.error (.regErr (reraiseOuter (handleWinregError (.raw e) full_path none)
                 ps.1 none)),
               [.openKeyCall root_key full_path accR, .queryInfoCall full_path,
                .openKeyCall root_key ps.1 accC, .deleteKeyCall ps.1 ps.2])

end registry_base

/- ----- registry_interface.py ----- -/

/-- `_ELEVATION_REQUIRED_ROOT_KEYS`: hives whose writes conventionally
require elevation. -/
def _ELEVATION_REQUIRED_ROOT_KEYS : List Int :=
  [HKEY_LOCAL_MACHINE, HKEY_USERS, HKEY_CLASSES_ROOT, HKEY_CURRENT_CONFIG]

/-- `_ELEVATION_REQUIRED_ROOT_KEY_NAMES.get(root_key, str(root_key))`. -/
def elevationRootKeyName (k : Int) : String :=
  if k = HKEY_LOCAL_MACHINE then "HKEY_LOCAL_MACHINE"
  else if k = HKEY_USERS then "HKEY_USERS"
  else if k = HKEY_CLASSES_ROOT then "HKEY_CLASSES_ROOT"
  else if k = HKEY_CURRENT_CONFIG then "HKEY_CURRENT_CONFIG"
  else toString k

/-- Python `str(OSError)` for the errors the elevation probe can raise
(`ctypes.WinError` always carries a winerror). -/
def OSErr.pyStr (e : OSErr) : String :=
  match e.winerror with
  | some c => "[WinError " ++ toString c ++ "] " ++ strerrorRepr e.strerror
  | none =>
    match e.strerror with
    | some s => s
    | none => ""

/-- The read-only rejection raised by `_check_write_permission`. -/
def readOnlyError : RegistryError :=
  ⟨ErrKind.permission, "Cannot perform write/delete operation in read-only mode.", none, none⟩

/-- The not-elevated rejection raised by `_check_write_permission`. -/
def elevDeniedError (root_key : Int) : RegistryError :=
  ⟨ErrKind.permission,
   "Write/delete operation on root key '" ++ elevationRootKeyName root_key ++ "' (" ++
     toString root_key ++
     ") typically requires elevated (administrator) privileges, but the current process is not elevated.",
   none, none⟩

/-- The wrapper raised when the elevation probe itself fails. -/
def elevProbeFailedError (root_key : Int) (e : OSErr) : RegistryError :=
  ⟨ErrKind.permission,
   "Failed to determine process elevation status required for write/delete operations on root key '" ++
     elevationRootKeyName root_key ++ "' (" ++ toString root_key ++
     "). Underlying check failed: " ++ e.pyStr,
   none, none⟩

/-- The instance state of a `RegistryRoot` facade.  `is_elevated_cached` is
the only mutable field (`None` = not yet probed). -/
structure RegistryRoot where
  root_key : Int
  rootPfx : Option String
  access_32bit_view : Bool
  read_only : Bool
  ignore_elevation_check : Bool
  is_elevated_cached : Option Bool
deriving DecidableEq

/-- `RegistryRoot.__init__` (root key already an int; hive-name lookup not
modelled): the elevation cache starts at `True` when the check is ignored,
else unset. -/
def RegistryRoot.init (root_key : Int) (rootPfx : Option String)
    (access_32bit_view read_only ignore_elevation_check : Bool) : RegistryRoot :=
  { root_key := root_key
    rootPfx := rootPfx
    access_32bit_view := access_32bit_view
    read_only := read_only
    ignore_elevation_check := ignore_elevation_check
    is_elevated_cached := if ignore_elevation_check then some true else none }

namespace RegistryRoot

/-- `_check_write_permission`: read-only rejection first; then, for
elevation-required hives, the lazily cached elevation probe.  Returns the
outcome, the updated instance state, and the collaborator calls made. -/
def checkWritePermission (os : WinReg) (r : RegistryRoot) :
    Except RegistryError Unit × RegistryRoot × List OSCall :=
  if r.read_only then (.error readOnlyError, r, [])
  else if r.root_key ∈ _ELEVATION_REQUIRED_ROOT_KEYS then
    match r.is_elevated_cached with
    | none =>
      match os.isElevated with
      | .error e => (.error (elevProbeFailedError r.root_key e), r, [.elevationProbe])
      | .ok b =>
        let r2 := { r with is_elevated_cached := some b }
        if b then (.ok (), r2, [.elevationProbe])
        else (.error (elevDeniedError r.root_key), r2, [.elevationProbe])
    | some b =>
      if b then (.ok (), r, []) else (.error (elevDeniedError r.root_key), r, [])
  else (.ok (), r, [])

/-- `RegistryRoot.put_registry_value`: permission check, then type
inference (no explicit type) or normalize + validate (explicit type), then
delegation to the operation layer. -/
def put_registry_value (os : WinReg) (r : RegistryRoot) (key_path value_name : String)
    (value_data : PyVal) (value_type : Option RegTypeInput) :
    Except PyErr Unit × RegistryRoot × List OSCall :=
  match checkWritePermission os r with
  | (.error e, r2, tr) => (.error (.regErr e), r2, tr)
  | (.ok _, r2, tr) =>
    let prepared : Except PyErr (PyVal × Int) :=
      match value_type with
      | none => _infer_registry_type_for_new_value value_data
      | some t =>
        match _normalize_registry_type_input t with
        | .error pe => .error pe
        | .ok ti =>
          match _validate_and_convert_data_for_type value_data ti with
          | .error pe => .error pe
          | .ok d => .ok (d, ti)
    match prepared with
    | .error pe => (.error pe, r2, tr)
    | .ok (d, ti) =>
      let res := registry_base.put_registry_value os r.root_key key_path value_name d ti
        r.rootPfx r.access_32bit_view
      (res.1, r2, tr ++ res.2)

/-- `RegistryRoot.put_registry_subkey`. -/
def put_registry_subkey (os : WinReg) (r : RegistryRoot) (key_path subkey_name : String) :
    Except PyErr Unit × RegistryRoot × List OSCall :=
  match checkWritePermission os r with
  | (.error e, r2, tr) => (.error (.regErr e), r2, tr)
  | (.ok _, r2, tr) =>
    let res := registry_base.put_registry_subkey os r.root_key key_path subkey_name
      r.rootPfx r.access_32bit_view
    (res.1, r2, tr ++ res.2)

/-- `RegistryRoot.get_registry_value` (read: no permission check, no state
change). -/
def get_registry_value (os : WinReg) (r : RegistryRoot) (key_path value_name : String) :
    Except PyErr RegistryValue × List OSCall :=
  registry_base.get_registry_value os r.root_key key_path value_name r.rootPfx
    r.access_32bit_view

/-- `RegistryRoot.list_registry_values` (read). -/
def list_registry_values (os : WinReg) (r : RegistryRoot) (key_path : String) (fuel : Nat) :
    Except PyErr (List RegistryValue) × List OSCall :=
  registry_base.list_registry_values os r.root_key key_path r.rootPfx r.access_32bit_view fuel

/-- `RegistryRoot.list_registry_subkeys` (read). -/
def list_registry_subkeys (os : WinReg) (r : RegistryRoot) (key_path : String) (fuel : Nat) :
    Except PyErr (List String) × List OSCall :=
  registry_base.list_registry_subkeys os r.root_key key_path r.rootPfx r.access_32bit_view fuel

/-- `RegistryRoot.head_registry_key` (read). -/
def head_registry_key (os : WinReg) (r : RegistryRoot) (key_path : String) :
    Except PyErr registry_base.HeadInfo × List OSCall :=
  registry_base.head_registry_key os r.root_key key_path r.rootPfx r.access_32bit_view

/-- `RegistryRoot.delete_registry_value`: permission check then delegation. -/
def delete_registry_value (os : WinReg) (r : RegistryRoot) (key_path value_name : String) :
    Except PyErr Unit × RegistryRoot × List OSCall :=
  match checkWritePermission os r with
  | (.error e, r2, tr) => (.error (.regErr e), r2, tr)
  | (.ok _, r2, tr) =>
    let res := registry_base.delete_registry_value os r.root_key key_path value_name
      r.rootPfx r.access_32bit_view
    (res.1, r2, tr ++ res.2)

/-- `RegistryRoot.delete_registry_key`: permission check then delegation. -/
def delete_registry_key (os : WinReg) (r : RegistryRoot) (key_path : String) :
    Except PyErr Unit × RegistryRoot × List OSCall :=
  match checkWritePermission os r with
  | (.error e, r2, tr) => (.error (.regErr e), r2, tr)
  | (.ok _, r2, tr) =>
    let res := registry_base.delete_registry_key os r.root_key key_path
      r.rootPfx r.access_32bit_view
    (res.1, r2, tr ++ res.2)

end RegistryRoot

/- ----- helper lemmas ----- -/

theorem strmk_data (l : List Char) : (String.mk l).data = l := rfl

/-- The winerror backfill in the re-raise branch can never fire, so a
domain error passes through `_handle_winreg_error` unmodified. -/
theorem handleWinregError_dom (e : RegistryError) (p : String) (n : Option String) :
    handleWinregError (.dom e) p n = e := by
  simp [handleWinregError]

/-- An already-translated error propagating into an outer `except OSError`
handler comes back out unchanged. -/
theorem reraiseOuter_eq (e : RegistryError) (p : String) (n : Option String) :
    reraiseOuter e p n = e := by
  unfold reraiseOuter
  split
  · exact handleWinregError_dom e p n
  · rfl

theorem charListContains_map_noSlash (l : List Char) :
    charListContains (l.map (fun c => if c = '/' then '\\' else c)) '/' = false := by
  induction l with
  | nil => rfl
  | cons c cs ih =>
    simp only [List.map, charListContains, ih, Bool.or_false]
    by_cases hc : c = '/'
    · subst hc; simp
    · simp [hc]

/-- `str.replace('/', '\\')` leaves no forward slash behind. -/
theorem noSlash_after_replace (s : String) :
    strContainsChar (pyReplaceChar s '/' '\\') '/' = false := by
  unfold pyReplaceChar strContainsChar
  rw [strmk_data]
  exact charListContains_map_noSlash s.data

/- ----- concrete oracles used by the witnesses ----- -/

/-- A raw WinError 2 (`ERROR_FILE_NOT_FOUND`). -/
def osErrNotFound : OSErr :=
  ⟨some 2, some ("The system cannot find the file specified")⟩

/-- Oracle on which every OS call succeeds. -/
def osAllOk : WinReg :=
  { openKey := fun _ _ _ => .ok ()
    createKeyEx := fun _ _ _ => .ok ()
    queryValueEx := fun _ _ => .ok (.str ("v"), REG_SZ)
    setValueEx := fun _ _ _ _ => .ok ()
    queryInfoKey := fun _ => .ok (0, 0, 116444736000000000)
    deleteValue := fun _ _ => .ok ()
    deleteKey := fun _ _ => .ok ()
    enumValue := fun _ _ => .error ⟨some 259, none⟩
    enumKey := fun _ _ => .error ⟨some 259, none⟩
    isElevated := .ok true }

/-- Oracle where the key opens but value-scoped calls fail with WinError 2. -/
def osValueMissing : WinReg :=
  { osAllOk with
    queryValueEx := fun _ _ => .error osErrNotFound
    deleteValue := fun _ _ => .error osErrNotFound }

/-- Oracle where opening any key fails with WinError 2. -/
def osKeyMissing : WinReg :=
  { osAllOk with openKey := fun _ _ _ => .error osErrNotFound }

/-- Oracle whose target key reports one subkey and two values. -/
def osNonEmptyKey : WinReg :=
  { osAllOk with queryInfoKey := fun _ => .ok (1, 2, 116444736000000000) }

/-- Oracle whose elevation probe fails. -/
def osProbeFails : WinReg :=
  { osAllOk with isElevated := .error ⟨some 6, some ("The handle is invalid")⟩ }

/-- Oracle whose elevation probe reports a non-elevated process. -/
def osNotElevated : WinReg :=
  { osAllOk with isElevated := .ok false }

/- ----- claim theorems ----- -/

theorem validate_dword_eq (d : Int) (t : Int)
    (ht : t = REG_DWORD ∨ t = REG_DWORD_BIG_ENDIAN) :
    _validate_and_convert_data_for_type (.int d) t =
      (if -(2 : Int) ^ 31 ≤ d ∧ d ≤ 2 ^ 32 - 1 then .ok (.int d)
       else .error (.valueErr ("Integer data " ++ toString d ++
         " is out of range for a 32-bit registry type (" ++ get_reg_type_name t ++ ")."))) := by
  rcases ht with h | h <;> subst h <;>
    simp [_validate_and_convert_data_for_type, REG_SZ, REG_EXPAND_SZ, REG_LINK,
      REG_DWORD, REG_DWORD_LITTLE_ENDIAN, REG_DWORD_BIG_ENDIAN]

theorem validate_qword_eq (d : Int) (t : Int)
    (ht : t = REG_QWORD ∨ t = REG_QWORD_LITTLE_ENDIAN) :
    _validate_and_convert_data_for_type (.int d) t =
      (if -(2 : Int) ^ 63 ≤ d ∧ d ≤ 2 ^ 64 - 1 then .ok (.int d)
       else .error (.valueErr ("Integer data " ++ toString d ++
         " is out of range for a 64-bit registry type (" ++ get_reg_type_name t ++ ")."))) := by
  rcases ht with h | h <;> subst h <;>
    simp [_validate_and_convert_data_for_type, REG_SZ, REG_EXPAND_SZ, REG_LINK,
      REG_DWORD, REG_DWORD_LITTLE_ENDIAN, REG_DWORD_BIG_ENDIAN,
      REG_QWORD, REG_QWORD_LITTLE_ENDIAN]

/-- C3: with a 32-bit-family tag, `_validate_and_convert_data_for_type`
returns an integer unchanged exactly when `-2^31 ≤ d ≤ 2^32 - 1` and raises
a `ValueError` range error otherwise; with a 64-bit-family tag the same
holds for `-2^63 ≤ d ≤ 2^64 - 1`. -/
theorem c3_validate_int_range_boundaries (d t : Int) :
    ((t = REG_DWORD ∨ t = REG_DWORD_LITTLE_ENDIAN ∨ t = REG_DWORD_BIG_ENDIAN) →
      ((_validate_and_convert_data_for_type (.int d) t = .ok (.int d)) ↔
        (-(2 : Int) ^ 31 ≤ d ∧ d ≤ 2 ^ 32 - 1)) ∧
      (¬(-(2 : Int) ^ 31 ≤ d ∧ d ≤ 2 ^ 32 - 1) →
        ∃ m, _validate_and_convert_data_for_type (.int d) t = .error (.valueErr m))) ∧
    ((t = REG_QWORD ∨ t = REG_QWORD_LITTLE_ENDIAN) →
      ((_validate_and_convert_data_for_type (.int d) t = .ok (.int d)) ↔
        (-(2 : Int) ^ 63 ≤ d ∧ d ≤ 2 ^ 64 - 1)) ∧
      (¬(-(2 : Int) ^ 63 ≤ d ∧ d ≤ 2 ^ 64 - 1) →
        ∃ m, _validate_and_convert_data_for_type (.int d) t = .error (.valueErr m))) := by
  constructor
  · intro ht
    have ht2 : t = REG_DWORD ∨ t = REG_DWORD_BIG_ENDIAN := by
      rcases ht with h | h | h
      · exact Or.inl h
      · exact Or.inl h
      · exact Or.inr h
    have heq := validate_dword_eq d t ht2
    by_cases hr : -(2 : Int) ^ 31 ≤ d ∧ d ≤ 2 ^ 32 - 1
    · rw [heq, if_pos hr]
      exact ⟨⟨fun _ => hr, fun _ => rfl⟩, fun hc => absurd hr hc⟩
    · rw [heq, if_neg hr]
      refine ⟨⟨fun h => ?_, fun h => absurd h hr⟩, fun _ => ⟨_, rfl⟩⟩
      simp at h
  · intro ht
    have heq := validate_qword_eq d t ht
    by_cases hr : -(2 : Int) ^ 63 ≤ d ∧ d ≤ 2 ^ 64 - 1
    · rw [heq, if_pos hr]
      exact ⟨⟨fun _ => hr, fun _ => rfl⟩, fun hc => absurd hr hc⟩
    · rw [heq, if_neg hr]
      refine ⟨⟨fun h => ?_, fun h => absurd h hr⟩, fun _ => ⟨_, rfl⟩⟩
      simp at h

/-- C3 witness: the boundary values at the concrete 32-bit tag. -/
theorem c3_witness :
    (_validate_and_convert_data_for_type (.int (2 ^ 32 - 1)) REG_DWORD =
      .ok (.int (2 ^ 32 - 1))) ∧
    (∃ m, _validate_and_convert_data_for_type (.int (2 ^ 32)) REG_DWORD =
      .error (.valueErr m)) ∧
    (_validate_and_convert_data_for_type (.int (2 ^ 64 - 1)) REG_QWORD =
      .ok (.int (2 ^ 64 - 1))) ∧
    (∃ m, _validate_and_convert_data_for_type (.int (2 ^ 64)) REG_QWORD =
      .error (.valueErr m)) := by
  refine ⟨((c3_validate_int_range_boundaries (2 ^ 32 - 1) REG_DWORD).1
      (Or.inl rfl)).1.mpr (by norm_num),
    ((c3_validate_int_range_boundaries (2 ^ 32) REG_DWORD).1
      (Or.inl rfl)).2 (by norm_num),
    ((c3_validate_int_range_boundaries (2 ^ 64 - 1) REG_QWORD).2
      (Or.inl rfl)).1.mpr (by norm_num),
    ((c3_validate_int_range_boundaries (2 ^ 64) REG_QWORD).2
      (Or.inl rfl)).2 (by norm_num)⟩

/-- C4 counterexample: joining an empty prefix with "a/b" returns "a/b"
unchanged, so the '/' in it is NOT normalized to '\\' — the claim's
"normalizes every occurrence of '/' in the joined result" fails on the
identity branches. -/
theorem c4_counterexample :
    ¬ ((_join_registry_paths ("") ("a/b") = "a/b") ∧
       strContainsChar (_join_registry_paths ("") ("a/b")) '/' = false) := by
  decide

/-- C4 amended: joining with an empty side returns the other side unchanged
(even if it contains '/'); when BOTH sides are non-empty, every '/' in the
joined result is normalized to '\\'. -/
theorem c4_join_identity_and_normalization (p r : String) :
    (_join_registry_paths p ("") = p) ∧
    (_join_registry_paths ("") r = r) ∧
    (p ≠ "" → r ≠ "" → strContainsChar (_join_registry_paths p r) '/' = false) := by
  refine ⟨?_, ?_, ?_⟩
  · unfold _join_registry_paths
    by_cases hp : p = ""
    · simp [hp]
    · simp [hp]
  · unfold _join_registry_paths
    simp
  · intro hp hr
    unfold _join_registry_paths
    rw [if_neg hp, if_neg hr]
    exact noSlash_after_replace _

/-- C4 witness for the amended normalization clause at concrete inputs. -/
theorem c4_witness :
    strContainsChar (_join_registry_paths ("Software/Vendor") ("App/Settings")) '/' = false :=
  (c4_join_identity_and_normalization ("Software/Vendor") ("App/Settings")).2.2
    (by decide) (by decide)

/-- C5: the error normalizer is idempotent — a domain `RegistryError` input
is re-raised as itself, unwrapped (the winerror backfill condition can
never fire since the raw code is read from the same attribute); any other
`OSError` maps to exactly the `_ERROR_MAP` exception carrying the raw
winerror code and strerror message. -/
theorem c5_normalizer_idempotent (e : RegistryError) (raw : OSErr)
    (p : String) (n : Option String) :
    handleWinregError (.dom e) p n = e ∧
    (handleWinregError (.raw raw) p n).kind = _ERROR_MAP raw.winerror ∧
    (handleWinregError (.raw raw) p n).winerror = raw.winerror ∧
    (handleWinregError (.raw raw) p n).strerror = raw.strerror := by
  refine ⟨handleWinregError_dom e p n, ?_, ?_, ?_⟩ <;> simp [handleWinregError]

/-- C9: a `RegistryValue` built from a mutable multi-string list stores the
immutable tuple, equals the one built from the tuple (by `__eq__` and as a
record), hashes identically (and hashes at all), and `__eq__` accepts the
bare 3-tuple with either the list or the tuple in the data slot. -/
theorem c9_multisz_equality_hash (name : String) (L : List String) :
    (RegistryValue.init name (.strList L) REG_MULTI_SZ).data = PyVal.strTuple L ∧
    RegistryValue.init name (.strList L) REG_MULTI_SZ =
      RegistryValue.init name (.strTuple L) REG_MULTI_SZ ∧
    RegistryValue.eqRV (RegistryValue.init name (.strList L) REG_MULTI_SZ)
      (RegistryValue.init name (.strTuple L) REG_MULTI_SZ) = true ∧
    (RegistryValue.init name (.strList L) REG_MULTI_SZ).hashOpt =
      (RegistryValue.init name (.strTuple L) REG_MULTI_SZ).hashOpt ∧
    (RegistryValue.init name (.strList L) REG_MULTI_SZ).hashOpt.isSome = true ∧
    RegistryValue.eqTriple (RegistryValue.init name (.strList L) REG_MULTI_SZ)
      name (.strList L) REG_MULTI_SZ = true ∧
    RegistryValue.eqTriple (RegistryValue.init name (.strList L) REG_MULTI_SZ)
      name (.strTuple L) REG_MULTI_SZ = true := by
  simp [RegistryValue.init, RegistryValue.eqRV, RegistryValue.eqTriple,
    RegistryValue.hashOpt, pyValHash, PyVal.isList, PyVal.listToTuple]

/-- C10: integer indexing on `RegistryValue` is total exactly on {0, 1, 2}
(0 ↦ name, 1 ↦ data, 2 ↦ type); every other integer index, including -1,
raises IndexError; iteration yields (name, data, type) in order. -/
theorem c10_getitem_iteration (v : RegistryValue) (k : Int) :
    v.getitem 0 = .ok (.str v.name) ∧
    v.getitem 1 = .ok v.data ∧
    v.getitem 2 = .ok (.int v.vtype) ∧
    ((∃ x, v.getitem k = .ok x) ↔ (k = 0 ∨ k = 1 ∨ k = 2)) ∧
    v.getitem (-1) = .error ("RegistryValue index out of range (expected 0, 1, or 2)") ∧
    v.iterFields = [.str v.name, v.data, .int v.vtype] := by
  refine ⟨by simp [RegistryValue.getitem], by simp [RegistryValue.getitem],
    by simp [RegistryValue.getitem], ?_, by simp [RegistryValue.getitem], rfl⟩
  constructor
  · rintro ⟨x, hx⟩
    by_cases h0 : k = 0
    · exact Or.inl h0
    by_cases h1 : k = 1
    · exact Or.inr (Or.inl h1)
    by_cases h2 : k = 2
    · exact Or.inr (Or.inr h2)
    simp [RegistryValue.getitem, h0, h1, h2] at hx
  · rintro (h | h | h) <;> subst h
    · exact ⟨.str v.name, by simp [RegistryValue.getitem]⟩
    · exact ⟨v.data, by simp [RegistryValue.getitem]⟩
    · exact ⟨.int v.vtype, by simp [RegistryValue.getitem]⟩

/-- C1: when the containing key opens but `QueryValueEx` fails with
WinError 2, `get_registry_value` raises the Value-Not-Found exception
(kind pinned, so never Key-Not-Found); when opening the key itself fails
with WinError 2, it raises Key-Not-Found. -/
theorem c1_value_vs_key_not_found (os : WinReg) (root_key : Int) (pfx : Option String)
    (kp vn : String) (v32 : Bool) :
    (os.openKey root_key (_join_registry_paths (optStr pfx) kp) (effAccess KEY_READ v32) =
        .ok () →
      ∀ e : OSErr, os.queryValueEx (_join_registry_paths (optStr pfx) kp) vn = .error e →
        e.winerror = some 2 →
        (registry_base.get_registry_value os root_key kp vn pfx v32).1 =
          .error (.regErr ⟨ErrKind.valueNotFound,
            "Registry value '" ++ vn ++ "' not found in key '" ++
              _join_registry_paths (optStr pfx) kp ++ "'.",
            none, none⟩)) ∧
    (∀ e : OSErr,
      os.openKey root_key (_join_registry_paths (optStr pfx) kp) (effAccess KEY_READ v32) =
        .error e →
      e.winerror = some 2 →
      ∃ err, (registry_base.get_registry_value os root_key kp vn pfx v32).1 =
          .error (.regErr err) ∧ err.kind = ErrKind.keyNotFound) := by
  constructor
  · intro hOpen e hQuery hwin
    simp only [registry_base.get_registry_value]
    simp [hOpen, hQuery, hwin]
  · intro e hOpen hwin
    refine ⟨handleWinregError (.raw e) (_join_registry_paths (optStr pfx) kp) none, ?_, ?_⟩
    · simp only [registry_base.get_registry_value]
      simp [hOpen, reraiseOuter_eq]
    · simp [handleWinregError, _ERROR_MAP, hwin]

/-- C1 witness at concrete inputs: a present key with an absent value, and
an absent key. -/
theorem c1_witness :
    (registry_base.get_registry_value osValueMissing 1 ("Settings") ("MyValue")
        none false).1 =
      .error (.regErr ⟨ErrKind.valueNotFound,
        "Registry value 'MyValue' not found in key 'Settings'.", none, none⟩) ∧
    (∃ err, (registry_base.get_registry_value osKeyMissing 1 ("Settings") ("MyValue")
        none false).1 =
      .error (.regErr err) ∧ err.kind = ErrKind.keyNotFound) := by
  constructor
  · exact (c1_value_vs_key_not_found osValueMissing 1 none ("Settings") ("MyValue")
      false).1 rfl osErrNotFound rfl rfl
  · exact (c1_value_vs_key_not_found osKeyMissing 1 none ("Settings") ("MyValue")
      false).2 osErrNotFound rfl rfl

/-- C2: delete is asymmetric — `delete_registry_value` swallows WinError 2
from the delete itself (idempotent), but an absent containing key raises
Key-Not-Found, and `delete_registry_key` on an absent key raises
Key-Not-Found rather than succeeding. -/
theorem c2_delete_asymmetry (os : WinReg) (root_key : Int) (pfx : Option String)
    (kp vn : String) (v32 : Bool) :
    (os.openKey root_key (_join_registry_paths (optStr pfx) kp)
        (effAccess KEY_SET_VALUE v32) = .ok () →
      ∀ e : OSErr, os.deleteValue (_join_registry_paths (optStr pfx) kp) vn = .error e →
        e.winerror = some 2 →
        (registry_base.delete_registry_value os root_key kp vn pfx v32).1 = .ok ()) ∧
    (∀ e : OSErr,
      os.openKey root_key (_join_registry_paths (optStr pfx) kp)
        (effAccess KEY_SET_VALUE v32) = .error e →
      e.winerror = some 2 →
      ∃ err, (registry_base.delete_registry_value os root_key kp vn pfx v32).1 =
          .error (.regErr err) ∧ err.kind = ErrKind.keyNotFound) ∧
    (_join_registry_paths (optStr pfx) kp ≠ "" →
      ∀ e : OSErr,
        os.openKey root_key (_join_registry_paths (optStr pfx) kp)
          (effAccess KEY_READ v32) = .error e →
        e.winerror = some 2 →
        ∃ err, (registry_base.delete_registry_key os root_key kp pfx v32).1 =
            .error (.regErr err) ∧ err.kind = ErrKind.keyNotFound) := by
  refine ⟨?_, ?_, ?_⟩
  · intro hOpen e hDel hwin
    simp only [registry_base.delete_registry_value]
    simp [hOpen, hDel, hwin]
  · intro e hOpen hwin
    refine ⟨handleWinregError (.raw e) (_join_registry_paths (optStr pfx) kp) none, ?_, ?_⟩
    · simp only [registry_base.delete_registry_value]
      simp [hOpen, reraiseOuter_eq]
    · simp [handleWinregError, _ERROR_MAP, hwin]
  · intro hne e hOpen hwin
    refine ⟨handleWinregError (.raw e) (_join_registry_paths (optStr pfx) kp) none, ?_, ?_⟩
    · simp only [registry_base.delete_registry_key]
      rw [if_neg hne]
      simp [hOpen, reraiseOuter_eq]
    · simp [handleWinregError, _ERROR_MAP, hwin]

/-- C2 witness: an existing key with an absent value deletes silently; an
absent key raises Key-Not-Found from both delete operations. -/
theorem c2_witness :
    (registry_base.delete_registry_value osValueMissing 1 ("Settings") ("MyValue")
        none false).1 = .ok () ∧
    (∃ err, (registry_base.delete_registry_value osKeyMissing 1 ("Settings") ("MyValue")
        none false).1 = .error (.regErr err) ∧ err.kind = ErrKind.keyNotFound) ∧
    (∃ err, (registry_base.delete_registry_key osKeyMissing 1 ("Settings")
        none false).1 = .error (.regErr err) ∧ err.kind = ErrKind.keyNotFound) := by
  refine ⟨?_, ?_, ?_⟩
  · exact (c2_delete_asymmetry osValueMissing 1 none ("Settings") ("MyValue")
      false).1 rfl osErrNotFound rfl rfl
  · exact (c2_delete_asymmetry osKeyMissing 1 none ("Settings") ("MyValue")
      false).2.1 osErrNotFound rfl rfl
  · exact (c2_delete_asymmetry osKeyMissing 1 none ("Settings") ("MyValue")
      false).2.2 (by decide) osErrNotFound rfl rfl

/-- C6: `delete_registry_key` rejects an empty resolved path with a
client-side ValueError before any OS call; nonzero child/value counts
abort with Key-Not-Empty reporting the exact counts, with a trace showing
only the phase-1 read (no deletion attempted); a key with zero subkeys and
zero values is deleted. -/
theorem c6_delete_key_two_phase (os : WinReg) (root_key : Int) (pfx : Option String)
    (kp : String) (v32 : Bool) :
    (_join_registry_paths (optStr pfx) kp = "" →
      registry_base.delete_registry_key os root_key kp pfx v32 =
        (.error (.valueErr ("Cannot delete the root registry key.")), [])) ∧
    (∀ ns nv ft, _join_registry_paths (optStr pfx) kp ≠ "" →
      os.openKey root_key (_join_registry_paths (optStr pfx) kp)
        (effAccess KEY_READ v32) = .ok () →
      os.queryInfoKey (_join_registry_paths (optStr pfx) kp) = .ok (ns, nv, ft) →
      (ns > 0 ∨ nv > 0) →
      registry_base.delete_registry_key os root_key kp pfx v32 =
        (.error (.regErr ⟨ErrKind.keyNotEmpty,
           "Registry key '" ++ _join_registry_paths (optStr pfx) kp ++
             "' is not empty (contains " ++ toString ns ++ " subkeys and " ++
             toString nv ++ " values). Cannot delete non-empty keys.",
           none, none⟩),
         [.openKeyCall root_key (_join_registry_paths (optStr pfx) kp)
            (effAccess KEY_READ v32),
          .queryInfoCall (_join_registry_paths (optStr pfx) kp)])) ∧
    (∀ ft, _join_registry_paths (optStr pfx) kp ≠ "" →
      os.openKey root_key (_join_registry_paths (optStr pfx) kp)
        (effAccess KEY_READ v32) = .ok () →
      os.queryInfoKey (_join_registry_paths (optStr pfx) kp) = .ok (0, 0, ft) →
      os.openKey root_key (ntSplit (_join_registry_paths (optStr pfx) kp)).1
        (effAccess KEY_CREATE_SUB_KEY v32) = .ok () →
      os.deleteKey (ntSplit (_join_registry_paths (optStr pfx) kp)).1
        (ntSplit (_join_registry_paths (optStr pfx) kp)).2 = .ok () →
      (registry_base.delete_registry_key os root_key kp pfx v32).1 = .ok ()) := by
  refine ⟨?_, ?_, ?_⟩
  · intro hJ
    simp only [registry_base.delete_registry_key]
    rw [if_pos hJ]
  · intro ns nv ft hne hOpen hQuery hcounts
    simp only [registry_base.delete_registry_key]
    rw [if_neg hne]
    simp [hOpen, hQuery, hcounts]
  · intro ft hne hOpen hQuery hOpenParent hDel
    simp only [registry_base.delete_registry_key]
    rw [if_neg hne]
    simp [hOpen, hQuery, hOpenParent, hDel]

/-- C6 witness: the empty path, a key with (1 subkey, 2 values), and an
empty key that deletes, all at concrete inputs. -/
theorem c6_witness :
    registry_base.delete_registry_key osAllOk 1 ("") none false =
      (.error (.valueErr ("Cannot delete the root registry key.")), []) ∧
    registry_base.delete_registry_key osNonEmptyKey 1 ("A\\B") none false =
      (.error (.regErr ⟨ErrKind.keyNotEmpty,
         "Registry key 'A\\B' is not empty (contains 1 subkeys and 2 values). Cannot delete non-empty keys.",
         none, none⟩),
       [.openKeyCall 1 ("A\\B") KEY_READ, .queryInfoCall ("A\\B")]) ∧
    (registry_base.delete_registry_key osAllOk 1 ("A\\B") none false).1 = .ok () := by
  refine ⟨?_, ?_, ?_⟩
  · exact (c6_delete_key_two_phase osAllOk 1 none ("") false).1 rfl
  · exact (c6_delete_key_two_phase osNonEmptyKey 1 none ("A\\B") false).2.1 1 2
      116444736000000000 (by decide) rfl rfl (Or.inl (by decide))
  · exact (c6_delete_key_two_phase osAllOk 1 none ("A\\B") false).2.2
      116444736000000000 (by decide) rfl rfl rfl rfl

/-- C7: a read-only `RegistryRoot` rejects all four write/delete methods
with the read-only Permission-Denied error before any delegation — state
unchanged and an empty OS-call trace — while every read method is entirely
independent of the flag. -/
theorem c7_read_only_facade (os : WinReg) (r : RegistryRoot) (kp vn sk : String)
    (vd : PyVal) (vt : Option RegTypeInput) (fuel : Nat) :
    RegistryRoot.put_registry_value os { r with read_only := true } kp vn vd vt =
      (.error (.regErr readOnlyError), { r with read_only := true }, []) ∧
    RegistryRoot.put_registry_subkey os { r with read_only := true } kp sk =
      (.error (.regErr readOnlyError), { r with read_only := true }, []) ∧
    RegistryRoot.delete_registry_value os { r with read_only := true } kp vn =
      (.error (.regErr readOnlyError), { r with read_only := true }, []) ∧
    RegistryRoot.delete_registry_key os { r with read_only := true } kp =
      (.error (.regErr readOnlyError), { r with read_only := true }, []) ∧
    RegistryRoot.get_registry_value os { r with read_only := true } kp vn =
      RegistryRoot.get_registry_value os { r with read_only := false } kp vn ∧
    RegistryRoot.list_registry_values os { r with read_only := true } kp fuel =
      RegistryRoot.list_registry_values os { r with read_only := false } kp fuel ∧
    RegistryRoot.list_registry_subkeys os { r with read_only := true } kp fuel =
      RegistryRoot.list_registry_subkeys os { r with read_only := false } kp fuel ∧
    RegistryRoot.head_registry_key os { r with read_only := true } kp =
      RegistryRoot.head_registry_key os { r with read_only := false } kp := by
  refine ⟨?_, ?_, ?_, ?_, rfl, rfl, rfl, rfl⟩ <;>
    simp [RegistryRoot.put_registry_value, RegistryRoot.put_registry_subkey,
      RegistryRoot.delete_registry_value, RegistryRoot.delete_registry_key,
      RegistryRoot.checkWritePermission]

/- ----- no-elevation-probe trace lemmas for the base operations ----- -/

theorem probe_notin_ensure (os : WinReg) (rk : Int) (kp : String)
    (pfx : Option String) (v : Bool) :
    OSCall.elevationProbe ∉ (registry_base.ensure_registry_key_exists os rk kp pfx v).2 := by
  unfold registry_base.ensure_registry_key_exists
  dsimp only
  split
  · simp
  · split <;> simp

theorem probe_notin_put_value (os : WinReg) (rk : Int) (kp vn : String) (vd : PyVal)
    (vt : Int) (pfx : Option String) (v : Bool) :
    OSCall.elevationProbe ∉
      (registry_base.put_registry_value os rk kp vn vd vt pfx v).2 := by
  unfold registry_base.put_registry_value
  dsimp only
  have h := probe_notin_ensure os rk (_join_registry_paths (optStr pfx) kp) none v
  split
  · rename_i e tr heq
    rw [heq] at h
    simpa using h
  · rename_i u tr heq
    rw [heq] at h
    simp only at h
    split
    · simp [h]
    · split <;> simp [h]

theorem probe_notin_put_subkey (os : WinReg) (rk : Int) (kp sk : String)
    (pfx : Option String) (v : Bool) :
    OSCall.elevationProbe ∉ (registry_base.put_registry_subkey os rk kp sk pfx v).2 := by
  unfold registry_base.put_registry_subkey
  dsimp only
  have h := probe_notin_ensure os rk (_join_registry_paths (optStr pfx) kp) none v
  split
  · rename_i e tr heq
    rw [heq] at h
    simpa using h
  · rename_i u tr heq
    rw [heq] at h
    simp only at h
    split <;> simp [h]

theorem probe_notin_get (os : WinReg) (rk : Int) (kp vn : String)
    (pfx : Option String) (v : Bool) :
    OSCall.elevationProbe ∉ (registry_base.get_registry_value os rk kp vn pfx v).2 := by
  unfold registry_base.get_registry_value
  dsimp only
  split
  · simp
  · split
    · simp
    · split <;> simp

theorem probe_notin_enumValuesLoop (os : WinReg) (fp : String) :
    ∀ fuel i acc, OSCall.elevationProbe ∉ (registry_base.enumValuesLoop os fp fuel i acc).2 := by
  intro fuel
  induction fuel with
  | zero => intro i acc; simp [registry_base.enumValuesLoop]
  | succ n ih =>
    intro i acc
    unfold registry_base.enumValuesLoop
    split
    · simpa using ih _ _
    · split <;> simp

theorem probe_notin_list_values (os : WinReg) (rk : Int) (kp : String)
    (pfx : Option String) (v : Bool) (fuel : Nat) :
    OSCall.elevationProbe ∉
      (registry_base.list_registry_values os rk kp pfx v fuel).2 := by
  unfold registry_base.list_registry_values
  dsimp only
  split
  · simp
  · simpa using probe_notin_enumValuesLoop os _ fuel 0 []

theorem probe_notin_enumKeysLoop (os : WinReg) (fp : String) :
    ∀ fuel i acc, OSCall.elevationProbe ∉ (registry_base.enumKeysLoop os fp fuel i acc).2 := by
  intro fuel
  induction fuel with
  | zero => intro i acc; simp [registry_base.enumKeysLoop]
  | succ n ih =>
    intro i acc
    unfold registry_base.enumKeysLoop
    split
    · simpa using ih _ _
    · split <;> simp

theorem probe_notin_list_subkeys (os : WinReg) (rk : Int) (kp : String)
    (pfx : Option String) (v : Bool) (fuel : Nat) :
    OSCall.elevationProbe ∉
      (registry_base.list_registry_subkeys os rk kp pfx v fuel).2 := by
  unfold registry_base.list_registry_subkeys
  dsimp only
  split
  · simp
  · simpa using probe_notin_enumKeysLoop os _ fuel 0 []

theorem probe_notin_head (os : WinReg) (rk : Int) (kp : String)
    (pfx : Option String) (v : Bool) :
    OSCall.elevationProbe ∉ (registry_base.head_registry_key os rk kp pfx v).2 := by
  unfold registry_base.head_registry_key
  dsimp only
  split
  · simp
  · split <;> simp

theorem probe_notin_delete_value (os : WinReg) (rk : Int) (kp vn : String)
    (pfx : Option String) (v : Bool) :
    OSCall.elevationProbe ∉ (registry_base.delete_registry_value os rk kp vn pfx v).2 := by
  unfold registry_base.delete_registry_value
  dsimp only
  split
  · simp
  · split
    · simp
    · split <;> simp

theorem probe_notin_delete_key (os : WinReg) (rk : Int) (kp : String)
    (pfx : Option String) (v : Bool) :
    OSCall.elevationProbe ∉ (registry_base.delete_registry_key os rk kp pfx v).2 := by
  unfold registry_base.delete_registry_key
  dsimp only
  split
  · simp
  · split
    · simp
    · split
      · simp
      · split
        · simp
        · split
          · simp
          · split <;> simp

/-- C8: the elevation probe never runs at construction (the constructor is
pure; the cache starts at `some true` only under ignore_elevation_check,
else unset) and never on read calls; on a write/delete call with an unset
cache and an elevation-required hive the probe runs once, its boolean is
cached in the instance, and a probe failure is wrapped as Permission-Denied
with the cache left unset; once the cache is set no call probes again or
changes state; the cache moves at most once, from unset to the probe's
boolean; and the four write methods invoke the probe exactly when the
permission check does. -/
theorem c8_elevation_lazy_cache (os : WinReg) (rk : Int) (pfx : Option String)
    (v32 ro ig : Bool) (r : RegistryRoot) (kp vn sk : String)
    (vd : PyVal) (vt : Option RegTypeInput) (fuel : Nat) :
    (RegistryRoot.init rk pfx v32 ro ig).is_elevated_cached =
      (if ig then some true else none) ∧
    OSCall.elevationProbe ∉ (RegistryRoot.get_registry_value os r kp vn).2 ∧
    OSCall.elevationProbe ∉ (RegistryRoot.list_registry_values os r kp fuel).2 ∧
    OSCall.elevationProbe ∉ (RegistryRoot.list_registry_subkeys os r kp fuel).2 ∧
    OSCall.elevationProbe ∉ (RegistryRoot.head_registry_key os r kp).2 ∧
    (r.is_elevated_cached = none → r.read_only = false →
      r.root_key ∈ _ELEVATION_REQUIRED_ROOT_KEYS →
      (∀ b, os.isElevated = .ok b →
        RegistryRoot.checkWritePermission os r =
          ((if b then .ok () else .error (elevDeniedError r.root_key)),
            { r with is_elevated_cached := some b }, [OSCall.elevationProbe])) ∧
      (∀ e, os.isElevated = .error e →
        RegistryRoot.checkWritePermission os r =
          (.error (elevProbeFailedError r.root_key e), r, [OSCall.elevationProbe]))) ∧
    (∀ c, r.is_elevated_cached = some c →
      (RegistryRoot.checkWritePermission os r).2.1 = r ∧
      (RegistryRoot.checkWritePermission os r).2.2 = []) ∧
    (((RegistryRoot.checkWritePermission os r).2.1).is_elevated_cached =
        r.is_elevated_cached ∨
      (r.is_elevated_cached = none ∧ ∃ b, os.isElevated = .ok b ∧
        ((RegistryRoot.checkWritePermission os r).2.1).is_elevated_cached = some b)) ∧
    (OSCall.elevationProbe ∈ (RegistryRoot.put_registry_value os r kp vn vd vt).2.2 ↔
      OSCall.elevationProbe ∈ (RegistryRoot.checkWritePermission os r).2.2) ∧
    (OSCall.elevationProbe ∈ (RegistryRoot.put_registry_subkey os r kp sk).2.2 ↔
      OSCall.elevationProbe ∈ (RegistryRoot.checkWritePermission os r).2.2) ∧
    (OSCall.elevationProbe ∈ (RegistryRoot.delete_registry_value os r kp vn).2.2 ↔
      OSCall.elevationProbe ∈ (RegistryRoot.checkWritePermission os r).2.2) ∧
    (OSCall.elevationProbe ∈ (RegistryRoot.delete_registry_key os r kp).2.2 ↔
      OSCall.elevationProbe ∈ (RegistryRoot.checkWritePermission os r).2.2) := by
  refine ⟨by simp [RegistryRoot.init], probe_notin_get os r.root_key kp vn r.rootPfx
      r.access_32bit_view,
    probe_notin_list_values os r.root_key kp r.rootPfx r.access_32bit_view fuel,
    probe_notin_list_subkeys os r.root_key kp r.rootPfx r.access_32bit_view fuel,
    probe_notin_head os r.root_key kp r.rootPfx r.access_32bit_view, ?_, ?_, ?_, ?_, ?_, ?_, ?_⟩
  · intro hc hro hmem
    constructor
    · intro b hb
      cases b <;> simp [RegistryRoot.checkWritePermission, hro, hmem, hc, hb]
    · intro e he
      simp [RegistryRoot.checkWritePermission, hro, hmem, hc, he]
  · intro c hcc
    constructor <;>
    · by_cases hro : r.read_only = true
      · simp [RegistryRoot.checkWritePermission, hro]
      · by_cases hmem : r.root_key ∈ _ELEVATION_REQUIRED_ROOT_KEYS
        · cases c <;> simp [RegistryRoot.checkWritePermission, hro, hmem, hcc]
        · simp [RegistryRoot.checkWritePermission, hro, hmem]
  · by_cases hro : r.read_only = true
    · left; simp [RegistryRoot.checkWritePermission, hro]
    · by_cases hmem : r.root_key ∈ _ELEVATION_REQUIRED_ROOT_KEYS
      · cases hcache : r.is_elevated_cached with
        | none =>
          cases he : os.isElevated with
          | error e =>
            left
            simp [RegistryRoot.checkWritePermission, hro, hmem, hcache, he]
          | ok b =>
            right
            refine ⟨rfl, b, rfl, ?_⟩
            cases b <;> simp [RegistryRoot.checkWritePermission, hro, hmem, hcache, he]
        | some c =>
          left
          cases c <;> simp [RegistryRoot.checkWritePermission, hro, hmem, hcache]
      · left; simp [RegistryRoot.checkWritePermission, hro, hmem]
  · unfold RegistryRoot.put_registry_value
    rcases hchk : RegistryRoot.checkWritePermission os r with ⟨res, r2, tr⟩
    rcases res with e | u
    · simp [hchk]
    · dsimp only
      split
      · simp
      · simp [List.mem_append, probe_notin_put_value]
  · unfold RegistryRoot.put_registry_subkey
    rcases hchk : RegistryRoot.checkWritePermission os r with ⟨res, r2, tr⟩
    rcases res with e | u
    · simp [hchk]
    · dsimp only
      simp [List.mem_append, probe_notin_put_subkey]
  · unfold RegistryRoot.delete_registry_value
    rcases hchk : RegistryRoot.checkWritePermission os r with ⟨res, r2, tr⟩
    rcases res with e | u
    · simp [hchk]
    · dsimp only
      simp [List.mem_append, probe_notin_delete_value]
  · unfold RegistryRoot.delete_registry_key
    rcases hchk : RegistryRoot.checkWritePermission os r with ⟨res, r2, tr⟩
    rcases res with e | u
    · simp [hchk]
    · dsimp only
      simp [List.mem_append, probe_notin_delete_key]

/-- A facade instance bound to HKEY_LOCAL_MACHINE with all policy flags off. -/
def rootHKLM : RegistryRoot :=
  RegistryRoot.init HKEY_LOCAL_MACHINE none false false false

/-- C8 witness: a first write-permission check probes and caches (success
and wrapped failure), and a cached instance never probes again. -/
theorem c8_witness :
    RegistryRoot.checkWritePermission osAllOk rootHKLM =
      (.ok (), { rootHKLM with is_elevated_cached := some true },
       [OSCall.elevationProbe]) ∧
    RegistryRoot.checkWritePermission osProbeFails rootHKLM =
      (.error (elevProbeFailedError rootHKLM.root_key
         ⟨some 6, some ("The handle is invalid")⟩),
       rootHKLM, [OSCall.elevationProbe]) ∧
    ((RegistryRoot.checkWritePermission osNotElevated
        { rootHKLM with is_elevated_cached := some false }).2.1 =
      { rootHKLM with is_elevated_cached := some false } ∧
     (RegistryRoot.checkWritePermission osNotElevated
        { rootHKLM with is_elevated_cached := some false }).2.2 = []) := by
  refine ⟨?_, ?_, ?_⟩
  · exact ((c8_elevation_lazy_cache osAllOk HKEY_LOCAL_MACHINE none false false false
      rootHKLM ("k") ("v") ("s") (.str ("d")) none 0).2.2.2.2.2.1 rfl rfl
      (by decide)).1 true rfl
  · exact ((c8_elevation_lazy_cache osProbeFails HKEY_LOCAL_MACHINE none false false false
      rootHKLM ("k") ("v") ("s") (.str ("d")) none 0).2.2.2.2.2.1 rfl rfl
      (by decide)).2 ⟨some 6, some ("The handle is invalid")⟩ rfl
  · exact (c8_elevation_lazy_cache osNotElevated HKEY_LOCAL_MACHINE none false false false
      { rootHKLM with is_elevated_cached := some false } ("k") ("v") ("s") (.str ("d"))
      none 0).2.2.2.2.2.2.1 false rfl
